import Mathlib

/-!
# dart_runner: `DartComponentControllerV2`

A shallow embedding of `shell/platform/fuchsia/dart_runner/dart_component_controller_v2.cc`.

The controller object, together with the pieces of engine state its code inspects
(`Dart_CurrentIsolate()`, `DartMicrotaskQueue::GetForCurrentThread()`,
`DartState::has_set_return_code()`), is a record `Controller`.  Every call the controller
makes on a collaborator (engine, namespace, timer, binding, loop) is appended to the field
`calls`, oldest first, so that "what was called, how often and in which order" is a
statement about a list.  Answers of the collaborators are the fields of `World`.
-/

namespace dart_runner

/-! ## Constants and collaborator types -/

/-- Zircon status `ZX_OK`. -/
def ZX_OK : Int := 0

/-- The value of `zx_status_t(fuchsia::component::Error::INTERNAL)`. -/
def Error_INTERNAL : Int := 1

/-- The constant `kTmpPath`. -/
def kTmpPath : List Char := "/tmp".toList

/-- The constructor `zx::sec(n)`, in nanoseconds. -/
def zx_sec (n : Int) : Int := n * 1000000000

/-- The constructor `zx::msec(n)`, in nanoseconds. -/
def zx_msec (n : Int) : Int := n * 1000000

/-- The constant `kIdleWaitDuration`. -/
def kIdleWaitDuration : Int := zx_sec 2

/-- The constant `kIdleNotifyDuration`. -/
def kIdleNotifyDuration : Int := zx_msec 500

/-- The constant `kIdleSlack`. -/
def kIdleSlack : Int := zx_sec 1

/-- Zircon `ZX_TIME_INFINITE`, the largest `zx_time_t`. -/
def ZX_TIME_INFINITE : Int := 9223372036854775807

/-- Zircon `ZX_TIME_INFINITE_PAST`, the smallest `zx_time_t`. -/
def ZX_TIME_INFINITE_PAST : Int := -9223372036854775808

/-- The operator `zx::time + zx::duration`: Zircon's `zx_time_add_duration`, a 64-bit signed
addition that saturates at `ZX_TIME_INFINITE` and `ZX_TIME_INFINITE_PAST` instead of
wrapping. -/
def zx_time_add_duration (t d : Int) : Int :=
  if ZX_TIME_INFINITE < t + d then ZX_TIME_INFINITE
  else if t + d < ZX_TIME_INFINITE_PAST then ZX_TIME_INFINITE_PAST
  else t + d

/-- Zircon signal bit `ZX_TIMER_SIGNALED` (`1u << 3`). -/
def ZX_TIMER_SIGNALED : Nat := 8

/-- The largest `size_t` of the 64-bit target. -/
def SIZE_MAX : Nat := 18446744073709551615

/-- A `Dart_Handle` as far as the controller can tell handles apart: the null object, some
other object, or an error handle. -/
inductive DartHandle where
  | null
  | object (id : Nat)
  | error (id : Nat)
  deriving DecidableEq, Repr

/-- The engine predicate `Dart_IsError`. -/
def Dart_IsError : DartHandle → Bool
  | .error _ => true
  | _ => false

/-- A `dart_utils::MappedResource` that has been mapped: where it is and what it holds. -/
structure MappedResource where
  address : Nat
  bytes : List Char
  deriving DecidableEq, Repr

/-- The accessor `MappedResource::size()`. -/
def MappedResource.size (r : MappedResource) : Nat := r.bytes.length

/-- One `fuchsia::component::runner::ComponentNamespaceEntry`; both table fields are
optional (`has_path()`, `has_directory()`), the directory is a channel handle. -/
structure NsEntry where
  path : Option (List Char)
  directory : Option Nat
  deriving DecidableEq, Repr

/-- A call made by the controller on one of its collaborators. -/
inductive Call where
  | binding_Close (epitaph : Int)
  | DartMicrotaskQueue_StartForCurrentThread
  | DartMicrotaskQueue_Destroy
  | DartMicrotaskQueue_RunMicrotasks
  | loop_Quit
  | Dart_SetMessageNotifyCallback_nullptr
  | Dart_ShutdownIsolate
  | Dart_NotifyIdle (deadline : Int)
  | idle_timer_set (deadline slack : Int)
  | idle_timer_cancel
  | wait_Begin
  | HandleIfException (result : DartHandle)
  | Dart_EnterScope
  | Dart_ExitScope
  | Dart_ExitIsolate
  | Dart_EnterIsolate
  | InitBuiltinLibrariesForIsolate
  | Dart_IsolateMakeRunnable
  | Dart_NewListOf
  | Dart_Invoke_main
  | fdio_ns_create
  | RunnerTemp_SetupComponent
  | fdio_ns_bind (path : List Char) (dir : Nat)
  | LoadFromNamespace (in_namespace : Bool) (path : List Char) (executable : Bool)
  | ElfSnapshot_Load (path : List Char)
  | Dart_CreateIsolateGroup (isolate_snapshot_data isolate_snapshot_instructions : Nat)
  | Dart_LoadLibraryFromKernel (address size : Nat)
  | Dart_SetRootLibrary (library : DartHandle)
  | Dart_FinalizeLoading
  deriving DecidableEq, Repr

/-- An invocation, by the engine, of one of the two callbacks `CreateIsolate` installs on
the controller: the return-code callback and the message epilogue, the latter with the
monotonic clock reading at which it runs. -/
inductive Callback where
  | SetReturnCode (return_code : Nat)
  | MessageEpilogue (now : Int) (result : DartHandle)
  deriving DecidableEq, Repr

/-- The answers of the collaborators, and the build configuration. -/
structure World where
  /-- Whether `AOT_RUNTIME` is defined. -/
  aot_runtime : Bool
  /-- Status returned by `fdio_ns_create`. -/
  fdio_ns_create : Int
  /-- Status returned by `fdio_ns_bind` for a path and a directory channel. -/
  fdio_ns_bind : List Char → Nat → Int
  /-- Result of `MappedResource::LoadFromNamespace(namespace_, path, ...)`. -/
  ns_resource : List Char → Option MappedResource
  /-- Result of `MappedResource::LoadFromNamespace(nullptr, path, ...)`. -/
  pkg_resource : List Char → Option MappedResource
  /-- Result of `elf_snapshot_.Load(namespace_, path)`: when it succeeds, the values of
  `IsolateData()` and `IsolateInstrs()` (0 is `nullptr`). -/
  elf_snapshot : List Char → Option (Nat × Nat)
  /-- The indeterminate value an uninitialised local `isolate_data` holds. -/
  indeterminate_isolate_data : Nat
  /-- The indeterminate value an uninitialised local `isolate_instructions` holds. -/
  indeterminate_isolate_instructions : Nat
  /-- `true` when `Dart_CreateIsolateGroup` returns a non-null isolate. -/
  Dart_CreateIsolateGroup : Nat → Nat → Bool
  /-- Handle returned by `Dart_LoadLibraryFromKernel` for a mapped unit. -/
  Dart_LoadLibraryFromKernel : MappedResource → DartHandle
  /-- Handle returned by `Dart_FinalizeLoading`. -/
  Dart_FinalizeLoading : DartHandle
  /-- `true` when `Dart_IsolateMakeRunnable` returns an error string. -/
  Dart_IsolateMakeRunnable_error : Bool
  /-- Handle returned by `Dart_NewListOf`. -/
  Dart_NewListOf : DartHandle
  /-- The return codes the program passes to the return-code callback while `main` runs,
  in order. -/
  main_return_codes : List Nat
  /-- Handle returned by `Dart_Invoke` of `main`. -/
  Dart_Invoke_main : DartHandle
  /-- The callbacks of the controller invoked, in order, while the microtasks pending at
  the end of the task that ran `main` are drained by `queue->RunMicrotasks()`. -/
  main_task_microtasks : List Callback
  /-- The value of `tonic::GetErrorExitCode`, as stored in the `uint32_t return_code_`. -/
  GetErrorExitCode : DartHandle → Nat

/-- The controller and the engine state its code inspects. -/
structure Controller where
  data_path_ : List Char
  /-- The namespace of `start_info_`, absent when `has_ns()` is false. -/
  start_info_ns : Option (List NsEntry)
  /-- Whether `namespace_` is non-null. -/
  namespace_ : Bool
  /-- Whether `isolate_` is non-null. -/
  isolate_ : Bool
  isolate_snapshot_data_ : Option MappedResource
  isolate_snapshot_instructions_ : Option MappedResource
  kernel_peices_ : List MappedResource
  /-- The value of `binding_.is_bound()`. -/
  binding_bound : Bool
  return_code_ : Nat
  /-- The value of `tonic::DartState::has_set_return_code()`. -/
  has_set_return_code : Bool
  /-- Whether `Dart_CurrentIsolate()` is non-null. -/
  current_isolate : Bool
  /-- Whether `DartMicrotaskQueue::GetForCurrentThread()` is non-null. -/
  microtask_queue : Bool
  /-- Whether `loop_->Quit()` has been called. -/
  loop_quit : Bool
  idle_start_ : Int
  /-- Every call made on a collaborator so far, oldest first. -/
  calls : List Call
  deriving DecidableEq, Repr

/-- Record one call. -/
def Controller.call (s : Controller) (c : Call) : Controller :=
  { s with calls := s.calls ++ [c] }

/-! ## Collaborator primitives with an effect on the modelled state -/

/-- The call `queue->Destroy()`: the thread has no microtask queue afterwards. -/
def DartMicrotaskQueue_Destroy (s : Controller) : Controller :=
  { s with microtask_queue := false, calls := s.calls ++ [.DartMicrotaskQueue_Destroy] }

/-- The call `DartMicrotaskQueue::StartForCurrentThread()`. -/
def DartMicrotaskQueue_StartForCurrentThread (s : Controller) : Controller :=
  { s with microtask_queue := true,
           calls := s.calls ++ [.DartMicrotaskQueue_StartForCurrentThread] }

/-- The call `loop_->Quit()`. -/
def loop_Quit (s : Controller) : Controller :=
  { s with loop_quit := true, calls := s.calls ++ [.loop_Quit] }

/-- The call `Dart_ShutdownIsolate()`: no isolate is current afterwards. -/
def Dart_ShutdownIsolate (s : Controller) : Controller :=
  { s with current_isolate := false, calls := s.calls ++ [.Dart_ShutdownIsolate] }

/-- The call `Dart_ExitIsolate()`. -/
def Dart_ExitIsolate (s : Controller) : Controller :=
  { s with current_isolate := false, calls := s.calls ++ [.Dart_ExitIsolate] }

/-- The call `Dart_EnterIsolate(isolate_)`. -/
def Dart_EnterIsolate (s : Controller) : Controller :=
  { s with current_isolate := true, calls := s.calls ++ [.Dart_EnterIsolate] }

/-- The call `binding_.Close(epitaph)`: sends the epitaph and unbinds. -/
def binding_Close (epitaph : Int) (s : Controller) : Controller :=
  { s with binding_bound := false, calls := s.calls ++ [.binding_Close epitaph] }

/-- The return-code callback installed by `CreateIsolate`, called through
`DartState::SetReturnCode`, which also raises `has_set_return_code`. -/
def SetReturnCode (return_code : Nat) (s : Controller) : Controller :=
  { s with return_code_ := return_code % 4294967296, has_set_return_code := true }

/-- The call `Dart_Invoke(Dart_RootLibrary(), "main", ...)`: the program runs and may call
the return-code callback. -/
def Dart_Invoke_main (w : World) (s : Controller) : Controller :=
  (w.main_return_codes.foldl (fun t c => SetReturnCode c t) s).call .Dart_Invoke_main

/-! ## Strings -/

/-- The call `str.find(c, start)` of `std::string`: the first index at or after `start`
holding `c`, or `npos` (here `none`). -/
def find (str : List Char) (c : Char) (start : Nat) : Option Nat :=
  let i := (str.drop start).indexOf c
  if start + i < str.length then some (start + i) else none

/-- The call `str.substr(pos, count)` of `std::string`, for `pos ≤ str.length()`. -/
def substr (str : List Char) (pos count : Nat) : List Char :=
  (str.drop pos).take count

/-- The read `str[i]` of `std::string`: a character inside the string, the terminator at
`i = length`, and no defined value beyond. -/
def string_at (str : List Char) (i : Nat) : Option Char :=
  if i < str.length then str[i]?
  else if i = str.length then some (Char.ofNat 0)
  else none

/-- The loop of `GetLabelFromUrl`, entered with index `i`; `none` when it reads outside
the string. -/
def GetLabelFromUrl.loop (url : List Char) : Nat → Option (List Char)
  | 0 => some url
  | i + 1 =>
    match string_at url (i + 1) with
    | none => none
    | some c =>
      if c = '/' then some (substr url (i + 1 + 1) (url.length - 1))
      else GetLabelFromUrl.loop url i

/-- The function `GetLabelFromUrl`; the start index `url.length() - 1` is computed in
`size_t`. `none` when the loop reads outside the string. -/
def GetLabelFromUrl (url : List Char) : Option (List Char) :=
  GetLabelFromUrl.loop url ((url.length + SIZE_MAX) % (SIZE_MAX + 1))

/-- The loop of `GetComponentNameFromUrl` over the indices from `i`, with `rest` the part
of the label from `i` on. -/
def GetComponentNameFromUrl.loop (label : List Char) : Nat → List Char → List Char
  | _, [] => label
  | i, c :: rest =>
    if c = '.' then substr label 0 i else GetComponentNameFromUrl.loop label (i + 1) rest

/-- The function `GetComponentNameFromUrl`. -/
def GetComponentNameFromUrl (url : List Char) : Option (List Char) :=
  (GetLabelFromUrl url).map fun label => GetComponentNameFromUrl.loop label 0 label

/-! ## Namespace binding -/

/-- The call `fdio_ns_create(&namespace_)`: `namespace_` is set when the status is
`ZX_OK` and left as it was otherwise. -/
def fdio_ns_create (w : World) (s : Controller) : Controller :=
  { s with namespace_ := s.namespace_ || decide (w.fdio_ns_create = ZX_OK),
           calls := s.calls ++ [Call.fdio_ns_create] }

/-- The loop of `CreateAndBindNamespace` over the entries of the supplied namespace. -/
def CreateAndBindNamespace.loop (w : World) : List NsEntry → Controller → Bool × Controller
  | [], s => (true, s)
  | ns_entry :: rest, s =>
    match ns_entry.path, ns_entry.directory with
    | some path, some dir =>
      if path = kTmpPath then CreateAndBindNamespace.loop w rest s
      else
        let s := s.call (.fdio_ns_bind path dir)
        if w.fdio_ns_bind path dir ≠ ZX_OK then (false, s)
        else CreateAndBindNamespace.loop w rest s
    | _, _ => CreateAndBindNamespace.loop w rest s

/-- The method `CreateAndBindNamespace`. -/
def CreateAndBindNamespace (w : World) (s : Controller) : Bool × Controller :=
  match s.start_info_ns with
  | none => (false, s)
  | some entries =>
    let s := fdio_ns_create w s
    let s := s.call .RunnerTemp_SetupComponent
    CreateAndBindNamespace.loop w entries s

/-! ## Program loading -/

/-- The method `CreateIsolate`. -/
def CreateIsolate (w : World) (isolate_snapshot_data isolate_snapshot_instructions : Nat)
    (s : Controller) : Bool × Controller :=
  let s := s.call (.Dart_CreateIsolateGroup isolate_snapshot_data isolate_snapshot_instructions)
  if w.Dart_CreateIsolateGroup isolate_snapshot_data isolate_snapshot_instructions then
    (true, { s with isolate_ := true, current_isolate := true })
  else
    (false, { s with isolate_ := false })

/-- The address of a member resource (`nullptr` while nothing is mapped). -/
def addressOf (r : Option MappedResource) : Nat :=
  match r with
  | some m => m.address
  | none => 0

/-- The manifest loop of `SetUpFromKernel` from index `start`, with at most `fuel`
iterations: `none` when the iterations run out, otherwise the library of the last unit when
the loop ran to its end, or nothing when the method returned `false` from inside it. -/
def SetUpFromKernel.loop (w : World) (str : List Char) :
    Nat → Nat → DartHandle → Controller → Option (Option DartHandle × Controller)
  | 0, _, _, _ => none
  | fuel + 1, start, library, s =>
    if start < str.length then
      match find str '\n' start with
      | none => some (none, s.call .Dart_ExitScope)
      | some end_ =>
        let path := s.data_path_ ++ "/".toList ++ substr str start (end_ - start)
        let s := s.call (.LoadFromNamespace true path false)
        match w.ns_resource path with
        | none => some (none, s.call .Dart_ExitScope)
        | some kernel =>
          let s := s.call (.Dart_LoadLibraryFromKernel kernel.address kernel.size)
          let library := w.Dart_LoadLibraryFromKernel kernel
          if Dart_IsError library then some (none, s.call .Dart_ExitScope)
          else
            SetUpFromKernel.loop w str fuel (end_ + 1) library
              { s with kernel_peices_ := s.kernel_peices_ ++ [kernel] }
    else some (some library, s)

/-- The part of `SetUpFromKernel` from `Dart_EnterScope()` on, for a mapped manifest. -/
def SetUpFromKernel.load (w : World) (manifest : MappedResource) (s : Controller) :
    Bool × Controller :=
  let s := s.call .Dart_EnterScope
  let str := manifest.bytes
  match SetUpFromKernel.loop w str (manifest.size + 1) 0 DartHandle.null s with
  | none => (false, s)
  | some (none, s) => (false, s)
  | some (some library, s) =>
    let s := s.call (.Dart_SetRootLibrary library)
    let s := s.call .Dart_FinalizeLoading
    if Dart_IsError w.Dart_FinalizeLoading then (false, s.call .Dart_ExitScope)
    else (true, s)

/-- The method `SetUpFromKernel`. -/
def SetUpFromKernel (w : World) (s : Controller) : Bool × Controller :=
  let manifest_path := s.data_path_ ++ "/app.dilplist".toList
  let s := s.call (.LoadFromNamespace true manifest_path false)
  match w.ns_resource manifest_path with
  | none => (false, s)
  | some manifest =>
    let data_path := "/pkg/data/isolate_core_snapshot_data.bin".toList
    let s := s.call (.LoadFromNamespace false data_path false)
    match w.pkg_resource data_path with
    | none => (false, s)
    | some data =>
      let s := { s with isolate_snapshot_data_ := some data }
      let instructions_path := "/pkg/data/isolate_core_snapshot_instructions.bin".toList
      let s := s.call (.LoadFromNamespace false instructions_path true)
      match w.pkg_resource instructions_path with
      | none => (false, s)
      | some instructions =>
        let s := { s with isolate_snapshot_instructions_ := some instructions }
        match CreateIsolate w (addressOf s.isolate_snapshot_data_)
            (addressOf s.isolate_snapshot_instructions_) s with
        | (false, s) => (false, s)
        | (true, s) => SetUpFromKernel.load w manifest s

/-- The method `SetUpFromAppSnapshot`. The locals `isolate_data` and
`isolate_instructions` are declared without an initialiser and assigned only in the branch
where the ELF snapshot loads. -/
def SetUpFromAppSnapshot (w : World) (s : Controller) : Bool × Controller :=
  if !w.aot_runtime then (false, s)
  else
    let isolate_data := w.indeterminate_isolate_data
    let isolate_instructions := w.indeterminate_isolate_instructions
    let elf_path := s.data_path_ ++ "/app_aot_snapshot.so".toList
    let s := s.call (Call.ElfSnapshot_Load elf_path)
    match w.elf_snapshot elf_path with
    | some (elf_data, elf_instructions) =>
      let isolate_data := elf_data
      let isolate_instructions := elf_instructions
      if isolate_data = 0 ∨ isolate_instructions = 0 then (false, s)
      else CreateIsolate w isolate_data isolate_instructions s
    | none =>
      let data_path := s.data_path_ ++ "/isolate_snapshot_data.bin".toList
      let s := s.call (.LoadFromNamespace true data_path false)
      match w.ns_resource data_path with
      | none => (false, s)
      | some data =>
        let s := { s with isolate_snapshot_data_ := some data }
        let instructions_path := s.data_path_ ++ "/isolate_snapshot_instructions.bin".toList
        let s := s.call (.LoadFromNamespace true instructions_path true)
        match w.ns_resource instructions_path with
        | none => (false, s)
        | some instructions =>
          let s := { s with isolate_snapshot_instructions_ := some instructions }
          CreateIsolate w isolate_data isolate_instructions s

/-- The method `SetUp` (thread naming left out). -/
def SetUp (w : World) (s : Controller) : Bool × Controller :=
  match CreateAndBindNamespace w s with
  | (false, s) => (false, s)
  | (true, s) =>
    match SetUpFromAppSnapshot w s with
    | (true, s) => (true, s)
    | (false, s) => SetUpFromKernel w s

/-! ## Running, stopping and idle detection -/

/-- The part of `RunDartMain` after `Dart_Invoke` has returned `main_result`. -/
def RunDartMain.onMainResult (w : World) (main_result : DartHandle) (s : Controller) :
    Bool × Controller :=
  if Dart_IsError main_result then
    let s :=
      if !s.has_set_return_code then
        let s : Controller := { s with return_code_ := w.GetErrorExitCode main_result }
        s.call (.HandleIfException main_result)
      else s
    (false, s.call .Dart_ExitScope)
  else
    (true, s.call .Dart_ExitScope)

/-- The method `RunDartMain`; `none` when `FML_CHECK(namespace_ != nullptr)` aborts the
process. -/
def RunDartMain (w : World) (s : Controller) : Option (Bool × Controller) :=
  if !s.namespace_ then none
  else
    let s := s.call .Dart_EnterScope
    let s := DartMicrotaskQueue_StartForCurrentThread s
    let s := s.call .InitBuiltinLibrariesForIsolate
    let s := s.call .Dart_ExitScope
    let s := Dart_ExitIsolate s
    let s := s.call .Dart_IsolateMakeRunnable
    if w.Dart_IsolateMakeRunnable_error then
      let s := Dart_EnterIsolate s
      let s := Dart_ShutdownIsolate s
      some (false, s)
    else
      let s := Dart_EnterIsolate s
      let s := s.call .Dart_EnterScope
      let s := s.call .Dart_NewListOf
      if Dart_IsError w.Dart_NewListOf then
        some (false, s.call .Dart_ExitScope)
      else
        let s := Dart_Invoke_main w s
        some (RunDartMain.onMainResult w w.Dart_Invoke_main s)

/-- The part of `Run` after `loop_->Run()` has returned. -/
def Run.afterLoop (s : Controller) : Controller :=
  if s.binding_bound then
    if s.return_code_ = 0 then binding_Close ZX_OK s
    else binding_Close Error_INTERNAL s
  else s

/-- The method `Kill`. -/
def Kill (s : Controller) : Controller :=
  if s.current_isolate then
    let s := if s.microtask_queue then DartMicrotaskQueue_Destroy s else s
    let s := loop_Quit s
    let s := s.call .Dart_SetMessageNotifyCallback_nullptr
    Dart_ShutdownIsolate s
  else s

/-- The method `Stop`. -/
def Stop (s : Controller) : Controller :=
  Kill s

/-- The method `MessageEpilogue`, called with the monotonic clock reading `now`. -/
def MessageEpilogue (w : World) (now : Int) (result : DartHandle) (s : Controller) :
    Controller :=
  if s.has_set_return_code then Dart_ShutdownIsolate s
  else
    let s := s.call (.HandleIfException result)
    let s : Controller := { s with return_code_ := w.GetErrorExitCode result }
    if s.return_code_ ≠ 0 then Dart_ShutdownIsolate s
    else
      let s : Controller := { s with idle_start_ := now }
      s.call (.idle_timer_set (zx_time_add_duration s.idle_start_ kIdleWaitDuration) kIdleSlack)

/-- The method `OnIdleTimer`, called with wait status `status` and signal set `observed`
when the monotonic clock reads `now`. -/
def OnIdleTimer (now : Int) (status : Int) (observed : Nat) (s : Controller) : Controller :=
  if status ≠ ZX_OK ∨ observed &&& ZX_TIMER_SIGNALED = 0 ∨ s.current_isolate = false then s
  else
    let deadline := zx_time_add_duration s.idle_start_ kIdleWaitDuration
    let s :=
      if now ≥ deadline then
        let s := s.call (.Dart_NotifyIdle (zx_time_add_duration now kIdleNotifyDuration))
        let s : Controller := { s with idle_start_ := 0 }
        s.call .idle_timer_cancel
      else
        s.call (.idle_timer_set deadline kIdleSlack)
    s.call .wait_Begin

/-- The effect on the controller of one callback invocation. -/
def Callback.run (w : World) : Callback → Controller → Controller
  | .SetReturnCode return_code, s => dart_runner.SetReturnCode return_code s
  | .MessageEpilogue now result, s => dart_runner.MessageEpilogue w now result s

/-- The call `queue->RunMicrotasks()`: the pending microtasks run, and reach the controller
through the callbacks they invoke, which are `callbacks`. -/
def DartMicrotaskQueue_RunMicrotasks (w : World) (callbacks : List Callback)
    (s : Controller) : Controller :=
  callbacks.foldl (fun t c => c.run w t) (s.call .DartMicrotaskQueue_RunMicrotasks)

/-- The loop epilogue `AfterTask`, run when the pending microtasks invoke `callbacks`. -/
def AfterTask (w : World) (callbacks : List Callback) (s : Controller) : Controller :=
  if s.microtask_queue then DartMicrotaskQueue_RunMicrotasks w callbacks s else s

/-- The state in which `loop_->Run()` returns inside `Run`: the posted task runs
`RunDartMain` and quits the loop when it fails, the epilogue follows, and when the loop has
not been told to quit it goes on dispatching, which is `dispatch`, until it is. -/
def Run.loop (w : World) (dispatch : Controller → Controller) (s : Controller) :
    Option Controller :=
  match RunDartMain w s with
  | none => none
  | some (ok, s) =>
    let s := if !ok then loop_Quit s else s
    let s := AfterTask w w.main_task_microtasks s
    some (if s.loop_quit then s else dispatch s)

/-- The method `Run`; `none` when the process aborts in `RunDartMain`. -/
def Run (w : World) (dispatch : Controller → Controller) (s : Controller) :
    Option Controller :=
  (Run.loop w dispatch s).map Run.afterLoop

/-! ## Vocabulary of the statements -/

/-- Whether a call is an idle notification to the engine. -/
def Call.isNotifyIdle : Call → Bool
  | .Dart_NotifyIdle _ => true
  | _ => false

/-- Whether a call arms the idle timer. -/
def Call.isIdleTimerSet : Call → Bool
  | .idle_timer_set _ _ => true
  | _ => false

/-- Whether a call sets the root library or finalizes loading. -/
def Call.isRootOrFinalize : Call → Bool
  | .Dart_SetRootLibrary _ => true
  | .Dart_FinalizeLoading => true
  | _ => false

/-- Record several calls, in order. -/
def Controller.callAll (s : Controller) (cs : List Call) : Controller :=
  { s with calls := s.calls ++ cs }

/-- The calls made between the states `s` and `t` include neither setting the root library
nor finalizing loading. -/
def Controller.WithoutRootOrFinalize (s t : Controller) : Prop :=
  ∃ new, t.calls = s.calls ++ new ∧ ∀ c ∈ new, c.isRootOrFinalize = false

/-- The idle notifications sent so far. -/
def Controller.notifications (s : Controller) : List Call :=
  s.calls.filter Call.isNotifyIdle

/-- The armings of the idle timer so far. -/
def Controller.armings (s : Controller) : List Call :=
  s.calls.filter Call.isIdleTimerSet

/-- The content of a manifest made of the given lines, each ended by a newline. -/
def unlines : List (List Char) → List Char
  | [] => []
  | line :: rest => line ++ '\n' :: unlines rest

/-- The two calls that load the unit named by one manifest line. -/
def unitCalls (data_path_ : List Char) (line : List Char) (kernel : MappedResource) :
    List Call :=
  [.LoadFromNamespace true (data_path_ ++ "/".toList ++ line) false,
   .Dart_LoadLibraryFromKernel kernel.address kernel.size]

/-- An exit-code mapping for examples: 255 on error handles and 0 on the others. -/
def exampleExitCode (h : DartHandle) : Nat :=
  if Dart_IsError h then 255 else 0

/-- A world for examples: the kernel configuration, every collaborator call succeeds, every
resource is mapped at address 4096 and holds the one-line manifest `main.dilp`, and `main`
returns normally without setting a return code. -/
def exampleWorld : World where
  aot_runtime := false
  fdio_ns_create := ZX_OK
  fdio_ns_bind := fun _ _ => ZX_OK
  ns_resource := fun _ => some ⟨4096, "main.dilp\n".toList⟩
  pkg_resource := fun _ => some ⟨4096, []⟩
  elf_snapshot := fun _ => none
  indeterminate_isolate_data := 7
  indeterminate_isolate_instructions := 9
  Dart_CreateIsolateGroup := fun _ _ => true
  Dart_LoadLibraryFromKernel := fun _ => .object 1
  Dart_FinalizeLoading := .null
  Dart_IsolateMakeRunnable_error := false
  Dart_NewListOf := .object 0
  main_return_codes := []
  Dart_Invoke_main := .null
  main_task_microtasks := []
  GetErrorExitCode := exampleExitCode

/-- A controller for examples: set up for `hello_dart`, with a namespace, a current
isolate and a bound binding, and nothing called yet. -/
def exampleController : Controller where
  data_path_ := "pkg/data/hello_dart".toList
  start_info_ns := some [⟨some "/svc".toList, some 5⟩]
  namespace_ := true
  isolate_ := true
  isolate_snapshot_data_ := none
  isolate_snapshot_instructions_ := none
  kernel_peices_ := []
  binding_bound := true
  return_code_ := 0
  has_set_return_code := false
  current_isolate := true
  microtask_queue := false
  loop_quit := false
  idle_start_ := 0
  calls := []

/-- A controller for examples as the constructor leaves it for `hello_dart`: no namespace,
no isolate, a bound binding, the supplied namespace holding `/svc`, `/tmp` and `/pkg`. -/
def freshController : Controller where
  data_path_ := "pkg/data/hello_dart".toList
  start_info_ns := some [⟨some "/svc".toList, some 5⟩, ⟨some "/tmp".toList, some 6⟩,
    ⟨some "/pkg".toList, some 7⟩]
  namespace_ := false
  isolate_ := false
  isolate_snapshot_data_ := none
  isolate_snapshot_instructions_ := none
  kernel_peices_ := []
  binding_bound := true
  return_code_ := 0
  has_set_return_code := false
  current_isolate := false
  microtask_queue := false
  loop_quit := false
  idle_start_ := 0
  calls := []

/-- A world in which `fdio_ns_create` fails with `ZX_ERR_NO_MEMORY` (-4) and every bind
would fail with `ZX_ERR_BAD_HANDLE` (-11). -/
def noNamespaceWorld : World :=
  { exampleWorld with fdio_ns_create := -4, fdio_ns_bind := fun _ _ => -11 }

/-- A freshly constructed controller whose supplied namespace holds `/tmp` only. -/
def tmpOnlyController : Controller :=
  { freshController with start_info_ns := some [⟨some "/tmp".toList, some 6⟩] }

/-- An ahead-of-time world in which the ELF snapshot does not load and the two blobs of
`hello_dart` map at 4096 (data) and 8192 (instructions). -/
def blobsWorld : World :=
  { exampleWorld with
    aot_runtime := true
    elf_snapshot := fun _ => none
    ns_resource := fun path =>
      if path = "pkg/data/hello_dart/isolate_snapshot_data.bin".toList then
        some ⟨4096, []⟩
      else if path = "pkg/data/hello_dart/isolate_snapshot_instructions.bin".toList then
        some ⟨8192, []⟩
      else none }

/-- A world in which the manifest of `hello_dart` is the three lines `a`, `b`, `c`, the
units map at 100, 200 and 300 and load as the libraries 1, 2 and 3. -/
def threeLineWorld : World :=
  { exampleWorld with
    ns_resource := fun path =>
      if path = "pkg/data/hello_dart/app.dilplist".toList then
        some ⟨50, "a\nb\nc\n".toList⟩
      else if path = "pkg/data/hello_dart/a".toList then some ⟨100, ['x']⟩
      else if path = "pkg/data/hello_dart/b".toList then some ⟨200, ['x', 'y']⟩
      else if path = "pkg/data/hello_dart/c".toList then some ⟨300, ['x', 'y', 'z']⟩
      else none
    Dart_LoadLibraryFromKernel := fun kernel => .object kernel.size }

/-- A world in which the program sets the return code 0 and `main` then returns an error
handle, as a program that exits with code 0 does. -/
def exitZeroWorld : World :=
  { exampleWorld with main_return_codes := [0], Dart_Invoke_main := .error 1 }

/-- A world in which the program sets no return code, `main` returns an error handle, and
one microtask is pending when that task ends; it completes normally at clock reading 10,
so the message epilogue is invoked on a handle that is not an error. -/
def pendingMicrotaskWorld : World :=
  { exampleWorld with
    Dart_Invoke_main := .error 1
    main_task_microtasks := [.MessageEpilogue 10 .null] }

/-- The namespace entry with the given path and directory, both present. -/
def NsEntry.ofPair (pd : List Char × Nat) : NsEntry :=
  ⟨some pd.1, some pd.2⟩

/-- The bind call for a path and a directory. -/
def bindCall (pd : List Char × Nat) : Call :=
  .fdio_ns_bind pd.1 pd.2

/-- The supplied entries that are not for the reserved temp path. -/
def notTmp (pairs : List (List Char × Nat)) : List (List Char × Nat) :=
  pairs.filter fun pd => decide (pd.1 ≠ kTmpPath)

/-! ## The terminal status sent by `Run` -/

/-- C1: when the event loop quits inside `Run` in state `q`, `Run` returns and the calls it
makes afterwards are exactly one `binding_.Close` if the binding is bound in `q`, with
`ZX_OK` when `return_code_ == 0` and with the `INTERNAL` epitaph otherwise, and no call at
all if the binding is not bound. -/
theorem Run_sends_one_terminal_status (w : World) (dispatch : Controller → Controller)
    (s q : Controller) (hq : Run.loop w dispatch s = some q) :
    ∃ r, Run w dispatch s = some r ∧
      (q.binding_bound = true → q.return_code_ = 0 →
        r.calls = q.calls ++ [Call.binding_Close ZX_OK]) ∧
      (q.binding_bound = true → q.return_code_ ≠ 0 →
        r.calls = q.calls ++ [Call.binding_Close Error_INTERNAL]) ∧
      (q.binding_bound = false → r = q) := by
  refine ⟨Run.afterLoop q, by simp [Run, hq], ?_, ?_, ?_⟩
  · intro hb hr
    simp [Run.afterLoop, hb, hr, binding_Close]
  · intro hb hr
    simp [Run.afterLoop, hb, hr, binding_Close]
  · intro hb
    simp [Run.afterLoop, hb]

/-- Witness of C1: a run in which `main` returns normally and the loop is then stopped by
`Kill`; the binding is bound and the return code is zero, so `ZX_OK` is sent. -/
theorem Run_sends_one_terminal_status_witness :
    ∃ q r, Run.loop exampleWorld Kill exampleController = some q ∧
      Run exampleWorld Kill exampleController = some r ∧
      q.binding_bound = true ∧ q.return_code_ = 0 ∧
      r.calls = q.calls ++ [Call.binding_Close ZX_OK] := by
  obtain ⟨q, hq⟩ : ∃ q, Run.loop exampleWorld Kill exampleController = some q := ⟨_, rfl⟩
  obtain ⟨r, hr, h0, _, _⟩ :=
    Run_sends_one_terminal_status exampleWorld Kill exampleController q hq
  have hb : q.binding_bound = true := by
    have h1 : (Run.loop exampleWorld Kill exampleController).map Controller.binding_bound
        = some true := rfl
    rw [hq] at h1
    simpa using h1
  have hc : q.return_code_ = 0 := by
    have h1 : (Run.loop exampleWorld Kill exampleController).map Controller.return_code_
        = some 0 := rfl
    rw [hq] at h1
    simpa using h1
  exact ⟨q, r, hq, hr, hb, hc, h0 hb hc⟩

/-! ## Shutdown -/

/-- C4: shutdown is idempotent. `Stop` is `Kill`; a second `Kill` right after a first one
changes nothing and makes no call; one `Kill` with an isolate current makes one microtask
queue destroy if a queue exists, then one loop quit, one reset of the message-notify
callback and one isolate shutdown; `Kill` with no isolate current changes nothing. -/
theorem Kill_idempotent (s : Controller) :
    Stop s = Kill s ∧
    Kill (Kill s) = Kill s ∧
    Stop (Stop s) = Stop s ∧
    (s.current_isolate = true →
      (Kill s).calls = s.calls ++
        (if s.microtask_queue then [Call.DartMicrotaskQueue_Destroy] else []) ++
        [Call.loop_Quit, Call.Dart_SetMessageNotifyCallback_nullptr,
         Call.Dart_ShutdownIsolate]) ∧
    (s.current_isolate = false → Kill s = s) := by
  refine ⟨rfl, ?_, ?_, ?_, ?_⟩
  · by_cases hc : s.current_isolate = true <;> by_cases hm : s.microtask_queue = true <;>
      simp [Kill, hc, hm, DartMicrotaskQueue_Destroy, loop_Quit, Controller.call,
        Dart_ShutdownIsolate]
  · by_cases hc : s.current_isolate = true <;> by_cases hm : s.microtask_queue = true <;>
      simp [Stop, Kill, hc, hm, DartMicrotaskQueue_Destroy, loop_Quit, Controller.call,
        Dart_ShutdownIsolate]
  · intro hc
    by_cases hm : s.microtask_queue = true <;>
      simp [Kill, hc, hm, DartMicrotaskQueue_Destroy, loop_Quit, Controller.call,
        Dart_ShutdownIsolate]
  · intro hc
    simp [Kill, hc]

/-- Witness of C4: `Kill` on the example controller, whose isolate is current, and `Kill` on
the state the first `Kill` leaves, where no isolate is current. -/
theorem Kill_idempotent_witness :
    (Kill exampleController).calls =
      [Call.loop_Quit, Call.Dart_SetMessageNotifyCallback_nullptr,
       Call.Dart_ShutdownIsolate] ∧
    Kill (Kill exampleController) = Kill exampleController := by
  refine ⟨?_, (Kill_idempotent (Kill exampleController)).2.2.2.2 (by decide)⟩
  have h := (Kill_idempotent exampleController).2.2.2.1 (by decide)
  simpa [exampleController] using h

/-! ## Return codes -/

/-- What the return-code calls of the program leave behind: the last code, and the flag. -/
theorem foldl_SetReturnCode (codes : List Nat) (s : Controller) :
    codes.foldl (fun t c => SetReturnCode c t) s =
      { s with
        return_code_ := (codes.getLast?.map (· % 4294967296)).getD s.return_code_,
        has_set_return_code := s.has_set_return_code || !codes.isEmpty } := by
  induction codes generalizing s with
  | nil => simp
  | cons c rest ih =>
    rw [List.foldl_cons, ih]
    cases rest with
    | nil => simp [SetReturnCode]
    | cons d rest2 =>
      obtain ⟨x, hx⟩ : ∃ x, (d :: rest2).getLast? = some x :=
        ⟨_, List.getLast?_eq_getLast _ (by simp)⟩
      simp [SetReturnCode, List.getLast?_cons_cons, hx]

/-- The return code and flag after `main` do not depend on the other fields. -/
theorem Dart_Invoke_main_congr (w : World) (s t : Controller)
    (hr : s.return_code_ = t.return_code_)
    (hf : s.has_set_return_code = t.has_set_return_code) :
    (Dart_Invoke_main w s).return_code_ = (Dart_Invoke_main w t).return_code_ ∧
    (Dart_Invoke_main w s).has_set_return_code =
      (Dart_Invoke_main w t).has_set_return_code := by
  simp [Dart_Invoke_main, foldl_SetReturnCode, Controller.call, hr, hf]

/-- C2, as stated, fails, in two ways. In `exitZeroWorld` the invocation of `main` returns
an error and the exit-code mapping is non-zero on every error handle, yet `return_code_`
is 0 after `RunDartMain` and `Run` closes the bound binding with `ZX_OK`. In
`pendingMicrotaskWorld` `RunDartMain` returns false with `return_code_` 255, the loop
epilogue then drains a microtask whose message epilogue stores 0 in `return_code_`, and
`Run` closes the bound binding with `ZX_OK` as well. -/
theorem RunDartMain_error_counterexample :
    (Dart_IsError exitZeroWorld.Dart_Invoke_main = true ∧
      (∀ h, Dart_IsError h = true → exitZeroWorld.GetErrorExitCode h ≠ 0) ∧
      exampleController.binding_bound = true ∧
      (RunDartMain exitZeroWorld exampleController).map
        (fun r => (r.1, r.2.return_code_)) = some (false, 0) ∧
      (Run exitZeroWorld id exampleController).map
        (fun r => r.calls.getLast?) = some (some (Call.binding_Close ZX_OK))) ∧
    (Dart_IsError pendingMicrotaskWorld.Dart_Invoke_main = true ∧
      (∀ h, Dart_IsError h = true → pendingMicrotaskWorld.GetErrorExitCode h ≠ 0) ∧
      (RunDartMain pendingMicrotaskWorld exampleController).map
        (fun r => (r.1, r.2.return_code_)) = some (false, 255) ∧
      (Run.loop pendingMicrotaskWorld id exampleController).map
        (fun q => q.return_code_) = some 0 ∧
      (Run pendingMicrotaskWorld id exampleController).map
        (fun r => r.calls.getLast?) = some (some (Call.binding_Close ZX_OK))) := by
  refine ⟨⟨rfl, ?_, rfl, rfl, rfl⟩, rfl, ?_, rfl, rfl, rfl⟩
  · intro h hh
    simp [exitZeroWorld, exampleWorld, exampleExitCode, hh]
  · intro h hh
    simp [pendingMicrotaskWorld, exampleWorld, exampleExitCode, hh]

/-- The callbacks the microtasks invoke leave the loop's quit flag and the binding alone. -/
theorem Callback.foldl_run_frame (w : World) (callbacks : List Callback) (s : Controller) :
    (callbacks.foldl (fun t c => c.run w t) s).loop_quit = s.loop_quit ∧
    (callbacks.foldl (fun t c => c.run w t) s).binding_bound = s.binding_bound := by
  induction callbacks generalizing s with
  | nil => exact ⟨rfl, rfl⟩
  | cons c rest ih =>
    rw [List.foldl_cons]
    have hstep : (c.run w s).loop_quit = s.loop_quit ∧
        (c.run w s).binding_bound = s.binding_bound := by
      cases c with
      | SetReturnCode return_code => exact ⟨rfl, rfl⟩
      | MessageEpilogue now result =>
        simp only [Callback.run, dart_runner.MessageEpilogue]
        split
        · exact ⟨rfl, rfl⟩
        · split <;> exact ⟨rfl, rfl⟩
    exact ⟨(ih _).1.trans hstep.1, (ih _).2.trans hstep.2⟩

/-- The loop epilogue leaves the loop's quit flag and the binding alone. -/
theorem AfterTask_frame (w : World) (callbacks : List Callback) (s : Controller) :
    (AfterTask w callbacks s).loop_quit = s.loop_quit ∧
    (AfterTask w callbacks s).binding_bound = s.binding_bound := by
  unfold AfterTask DartMicrotaskQueue_RunMicrotasks
  split
  · exact Callback.foldl_run_frame w callbacks _
  · exact ⟨rfl, rfl⟩

/-- The loop epilogue leaves the return code alone when no microtask invokes a callback. -/
theorem AfterTask_nil_return_code (w : World) (s : Controller) :
    (AfterTask w [] s).return_code_ = s.return_code_ := by
  unfold AfterTask DartMicrotaskQueue_RunMicrotasks
  split <;> rfl

/-- C2, amended: when the invocation of `main` in `RunDartMain` returns an error and, by
then, the program has not set a return code or has set a non-zero one, `RunDartMain`
returns false with `return_code_` non-zero (the exit-code mapping being non-zero on every
error handle). The loop then quits in the state the epilogue `AfterTask` leaves, without
dispatching anything further, and `Run` closes a bound binding with the `INTERNAL` epitaph
provided the microtasks drained by that epilogue leave `return_code_` non-zero, which is so
when none of them invokes a callback of the controller. -/
theorem RunDartMain_error_terminal_status (w : World) (s : Controller)
    (hns : s.namespace_ = true)
    (hrun : w.Dart_IsolateMakeRunnable_error = false)
    (hargs : Dart_IsError w.Dart_NewListOf = false)
    (hmain : Dart_IsError w.Dart_Invoke_main = true)
    (hcode : ∀ h, Dart_IsError h = true → w.GetErrorExitCode h ≠ 0)
    (hset : (Dart_Invoke_main w s).has_set_return_code = true →
      (Dart_Invoke_main w s).return_code_ ≠ 0) :
    ∃ s', RunDartMain w s = some (false, s') ∧ s'.return_code_ ≠ 0 ∧
      ∀ dispatch : Controller → Controller,
        ∃ q, q = AfterTask w w.main_task_microtasks (loop_Quit s') ∧
          Run.loop w dispatch s = some q ∧
          Run w dispatch s = some (Run.afterLoop q) ∧
          q.binding_bound = s.binding_bound ∧
          (w.main_task_microtasks = [] → q.return_code_ ≠ 0) ∧
          (q.return_code_ ≠ 0 → q.binding_bound = true →
            (Run.afterLoop q).calls = q.calls ++ [Call.binding_Close Error_INTERNAL]) := by
  set p : Controller :=
    ((Dart_EnterIsolate ((Dart_ExitIsolate (((DartMicrotaskQueue_StartForCurrentThread
      (s.call .Dart_EnterScope)).call .InitBuiltinLibrariesForIsolate).call
        .Dart_ExitScope)).call .Dart_IsolateMakeRunnable)).call .Dart_EnterScope).call
          .Dart_NewListOf with hp
  have hfields := Dart_Invoke_main_congr w p s (by simp [hp, Controller.call,
    Dart_EnterIsolate, Dart_ExitIsolate, DartMicrotaskQueue_StartForCurrentThread])
    (by simp [hp, Controller.call, Dart_EnterIsolate, Dart_ExitIsolate,
      DartMicrotaskQueue_StartForCurrentThread])
  have hmainRun : RunDartMain w s
      = some (RunDartMain.onMainResult w w.Dart_Invoke_main (Dart_Invoke_main w p)) := by
    simp [RunDartMain, hns, hrun, hargs, hp]
  have hfst : (RunDartMain.onMainResult w w.Dart_Invoke_main (Dart_Invoke_main w p)).1
      = false := by
    simp [RunDartMain.onMainResult, hmain]
  have hrc : (RunDartMain.onMainResult w w.Dart_Invoke_main (Dart_Invoke_main w p)).2.return_code_
      ≠ 0 := by
    by_cases hf : (Dart_Invoke_main w p).has_set_return_code = true
    · have := hset (by rw [← hfields.2]; exact hf)
      simpa [RunDartMain.onMainResult, hmain, hf, Controller.call, hfields.1] using this
    · simpa [RunDartMain.onMainResult, hmain, hf, Controller.call] using
        hcode _ hmain
  have hbound :
      (RunDartMain.onMainResult w w.Dart_Invoke_main (Dart_Invoke_main w p)).2.binding_bound
        = s.binding_bound := by
    have hinv : (Dart_Invoke_main w p).binding_bound = s.binding_bound := by
      simp [Dart_Invoke_main, foldl_SetReturnCode, Controller.call, hp, Dart_EnterIsolate,
        Dart_ExitIsolate, DartMicrotaskQueue_StartForCurrentThread]
    rw [← hinv]
    unfold RunDartMain.onMainResult
    rw [if_pos hmain]
    by_cases hf : (Dart_Invoke_main w p).has_set_return_code = true <;>
      simp [hf, Controller.call]
  refine ⟨(RunDartMain.onMainResult w w.Dart_Invoke_main (Dart_Invoke_main w p)).2, ?_, hrc,
    ?_⟩
  · rw [hmainRun, ← hfst]
  · intro dispatch
    have hframe := AfterTask_frame w w.main_task_microtasks (loop_Quit
      (RunDartMain.onMainResult w w.Dart_Invoke_main (Dart_Invoke_main w p)).2)
    have hq : (AfterTask w w.main_task_microtasks (loop_Quit
        (RunDartMain.onMainResult w w.Dart_Invoke_main (Dart_Invoke_main w p)).2)).loop_quit
        = true := by
      rw [hframe.1]
      rfl
    have hloop : Run.loop w dispatch s = some (AfterTask w w.main_task_microtasks (loop_Quit
        (RunDartMain.onMainResult w w.Dart_Invoke_main (Dart_Invoke_main w p)).2)) := by
      simp only [Run.loop, hmainRun, hfst]
      simp [hq]
    refine ⟨_, rfl, hloop, by simp [Run, hloop], ?_, ?_, ?_⟩
    · rw [hframe.2, ← hbound]
      rfl
    · intro hnil
      rw [hnil, AfterTask_nil_return_code]
      exact hrc
    · intro hrc2 hb
      simp [Run.afterLoop, hb, hrc2, binding_Close]

/-- Witness of C2 (amended): a program that sets no return code, whose `main` returns an
error handle and leaves no microtask pending; the binding is closed with `INTERNAL`. -/
theorem RunDartMain_error_terminal_status_witness :
    ∃ s', RunDartMain { exampleWorld with Dart_Invoke_main := .error 1 } exampleController
        = some (false, s') ∧ s'.return_code_ ≠ 0 ∧
      (Run { exampleWorld with Dart_Invoke_main := .error 1 } id exampleController).map
        (fun r => r.calls.getLast?) = some (some (Call.binding_Close Error_INTERNAL)) := by
  obtain ⟨s', h1, h2, h3⟩ := RunDartMain_error_terminal_status
    { exampleWorld with Dart_Invoke_main := .error 1 } exampleController rfl rfl rfl rfl
    (by intro h hh; simp [exampleWorld, exampleExitCode, hh])
    (by decide)
  obtain ⟨q, _, _, hrun, hb, hnil, hclose⟩ := h3 id
  have hc := hclose (hnil rfl) (hb.trans rfl)
  refine ⟨s', h1, h2, ?_⟩
  rw [hrun]
  simp [hc]

/-- C3: once the program has set a return code `r`, `MessageEpilogue` with any result
handle only shuts the isolate down, so after any number of later calls of it
`return_code_` is still `r` and the idle timer has not been armed; and the error branch of
`RunDartMain`, taken in any such later state, returns false, leaves `return_code_` equal
to `r` and does not arm the timer either. -/
theorem explicit_return_code_kept (w : World) (r : Nat) (s : Controller)
    (hset : s.has_set_return_code = true) (hr : s.return_code_ = r) :
    (∀ now result, MessageEpilogue w now result s = Dart_ShutdownIsolate s) ∧
    (∀ later : List (Int × DartHandle),
      (later.foldl (fun t e => MessageEpilogue w e.1 e.2 t) s).has_set_return_code = true ∧
      (later.foldl (fun t e => MessageEpilogue w e.1 e.2 t) s).return_code_ = r ∧
      (later.foldl (fun t e => MessageEpilogue w e.1 e.2 t) s).armings = s.armings ∧
      ∀ main_result, Dart_IsError main_result = true →
        (RunDartMain.onMainResult w main_result
          (later.foldl (fun t e => MessageEpilogue w e.1 e.2 t) s)).1 = false ∧
        (RunDartMain.onMainResult w main_result
          (later.foldl (fun t e => MessageEpilogue w e.1 e.2 t) s)).2.return_code_ = r ∧
        (RunDartMain.onMainResult w main_result
          (later.foldl (fun t e => MessageEpilogue w e.1 e.2 t) s)).2.armings
            = s.armings) := by
  have hstep : ∀ (t : Controller) now result, t.has_set_return_code = true →
      MessageEpilogue w now result t = Dart_ShutdownIsolate t := by
    intro t now result ht
    simp [MessageEpilogue, ht]
  refine ⟨fun now result => hstep s now result hset, ?_⟩
  intro later
  have hinv : (later.foldl (fun t e => MessageEpilogue w e.1 e.2 t) s).has_set_return_code
        = true ∧
      (later.foldl (fun t e => MessageEpilogue w e.1 e.2 t) s).return_code_ = r ∧
      (later.foldl (fun t e => MessageEpilogue w e.1 e.2 t) s).armings = s.armings := by
    induction later using List.reverseRecOn with
    | nil => exact ⟨hset, hr, rfl⟩
    | append_singleton l e ih =>
      rw [List.foldl_append, List.foldl_cons, List.foldl_nil, hstep _ _ _ ih.1]
      refine ⟨ih.1, ih.2.1, ?_⟩
      rw [← ih.2.2]
      simp [Dart_ShutdownIsolate, Controller.armings, List.filter_append,
        Call.isIdleTimerSet]
  refine ⟨hinv.1, hinv.2.1, hinv.2.2, ?_⟩
  intro main_result herr
  refine ⟨by simp [RunDartMain.onMainResult, herr], ?_, ?_⟩
  · simpa [RunDartMain.onMainResult, herr, hinv.1, Controller.call] using hinv.2.1
  · rw [← hinv.2.2]
    simp [RunDartMain.onMainResult, herr, hinv.1, Controller.call, Controller.armings,
      List.filter_append, Call.isIdleTimerSet]

/-- Witness of C3: the program has set the return code 3; a message that ends in an error
and the error branch of `RunDartMain` both leave it. -/
theorem explicit_return_code_kept_witness :
    (MessageEpilogue exampleWorld 10 (.error 1)
      { exampleController with has_set_return_code := true, return_code_ := 3 }).return_code_
      = 3 := by
  have h := (explicit_return_code_kept exampleWorld 3
    { exampleController with has_set_return_code := true, return_code_ := 3 } rfl rfl).2
    [(10, .error 1)]
  exact h.2.1

/-! ## Idle detection -/

/-- Zircon's saturating time addition is plain addition while the sum is a `zx_time_t`. -/
theorem zx_time_add_duration_eq (t d : Int) (hlo : ZX_TIME_INFINITE_PAST ≤ t + d)
    (hhi : t + d ≤ ZX_TIME_INFINITE) : zx_time_add_duration t d = t + d := by
  unfold zx_time_add_duration
  rw [if_neg (by omega), if_neg (by omega)]

/-- A clock reading that is a finite `zx_time_t` and less than `d` after `t` is also
before `t + d` in Zircon's saturating addition. -/
theorem lt_zx_time_add_duration (now t d : Int) (hlo : ZX_TIME_INFINITE_PAST ≤ now)
    (hhi : now < ZX_TIME_INFINITE) (hlt : now < t + d) : now < zx_time_add_duration t d := by
  unfold zx_time_add_duration
  split
  · omega
  · split <;> omega

/-- C8: `OnIdleTimer` at clock reading `now`, with `+` on times being Zircon's addition.
With status `ZX_OK`, the timer signal observed and an isolate current: if
`now >= idle_start_ + 2s` it notifies the engine idle once, with deadline `now + 500ms`,
resets `idle_start_` to 0 and cancels the timer; if `now < idle_start_ + 2s` it sends no
notification and sets the timer to `idle_start_ + 2s` with 1s slack. Otherwise it does
nothing at all. Hence no call of `OnIdleTimer` before `idle_start_ + 2s` sends a
notification, `idle_start_` being the activity instant `t` that `MessageEpilogue` records
when it arms the timer; for a clock reading that is a finite `zx_time_t`, before
`t + 2s` is less than 2s after `t`. -/
theorem OnIdleTimer_spec (now status : Int) (observed : Nat) (s : Controller) :
    (status = ZX_OK → observed &&& ZX_TIMER_SIGNALED ≠ 0 → s.current_isolate = true →
      (zx_time_add_duration s.idle_start_ kIdleWaitDuration ≤ now →
        OnIdleTimer now status observed s =
          { s with
            idle_start_ := 0,
            calls := s.calls ++
              [Call.Dart_NotifyIdle (zx_time_add_duration now kIdleNotifyDuration),
               Call.idle_timer_cancel, Call.wait_Begin] }) ∧
      (now < zx_time_add_duration s.idle_start_ kIdleWaitDuration →
        OnIdleTimer now status observed s =
          { s with
            calls := s.calls ++
              [Call.idle_timer_set (zx_time_add_duration s.idle_start_ kIdleWaitDuration)
                 kIdleSlack,
               Call.wait_Begin] })) ∧
    (status ≠ ZX_OK ∨ observed &&& ZX_TIMER_SIGNALED = 0 ∨ s.current_isolate = false →
      OnIdleTimer now status observed s = s) ∧
    (now < zx_time_add_duration s.idle_start_ kIdleWaitDuration →
      (OnIdleTimer now status observed s).notifications = s.notifications) ∧
    (∀ (w : World) (t : Int) (result : DartHandle),
      s.has_set_return_code = false → w.GetErrorExitCode result = 0 →
      (MessageEpilogue w t result s).idle_start_ = t ∧
      (now < zx_time_add_duration t kIdleWaitDuration →
        (OnIdleTimer now status observed (MessageEpilogue w t result s)).notifications =
          (MessageEpilogue w t result s).notifications) ∧
      (ZX_TIME_INFINITE_PAST ≤ now → now < ZX_TIME_INFINITE →
        now < t + kIdleWaitDuration →
        (OnIdleTimer now status observed (MessageEpilogue w t result s)).notifications =
          (MessageEpilogue w t result s).notifications)) := by
  have hquiet : ∀ u : Controller,
      now < zx_time_add_duration u.idle_start_ kIdleWaitDuration →
      (OnIdleTimer now status observed u).notifications = u.notifications := by
    intro u hlt
    have hd : ¬ now ≥ zx_time_add_duration u.idle_start_ kIdleWaitDuration := by omega
    unfold OnIdleTimer
    split
    · rfl
    · simp [hd, Controller.call, Controller.notifications, List.filter_append,
        Call.isNotifyIdle]
  refine ⟨?_, ?_, hquiet s, ?_⟩
  · intro hst hobs hcur
    constructor
    · intro hge
      simp [OnIdleTimer, hst, hobs, hcur, hge, Controller.call]
    · intro hlt
      have hd : ¬ now ≥ zx_time_add_duration s.idle_start_ kIdleWaitDuration := by omega
      simp [OnIdleTimer, hst, hcur, hd, hobs, Controller.call]
  · intro h
    simp only [OnIdleTimer]
    rw [if_pos h]
  · intro w t result hset hcode
    have hidle : (MessageEpilogue w t result s).idle_start_ = t := by
      simp [MessageEpilogue, hset, hcode, Controller.call]
    refine ⟨hidle, ?_, ?_⟩
    · intro hlt
      exact hquiet _ (by rw [hidle]; exact hlt)
    · intro hlo hhi hlt
      exact hquiet _ (by rw [hidle]; exact lt_zx_time_add_duration now t _ hlo hhi hlt)

/-- Witness of C8: the timer fires 3s after boot on the example controller, whose
`idle_start_` is 0, and one notification with deadline 3.5s is sent. -/
theorem OnIdleTimer_spec_witness :
    OnIdleTimer 3000000000 ZX_OK ZX_TIMER_SIGNALED exampleController =
      { exampleController with
        idle_start_ := 0,
        calls := [Call.Dart_NotifyIdle 3500000000, Call.idle_timer_cancel,
          Call.wait_Begin] } := by
  have h := ((OnIdleTimer_spec 3000000000 ZX_OK ZX_TIMER_SIGNALED exampleController).1
    rfl (by decide) rfl).1 (by decide)
  rw [h]
  decide

/-! ## Namespace binding -/

/-- Recording no call changes nothing. -/
theorem Controller.callAll_nil (s : Controller) : s.callAll [] = s := by
  simp [Controller.callAll]

/-- Recording a call and then more calls. -/
theorem Controller.call_callAll (s : Controller) (c : Call) (cs : List Call) :
    (s.call c).callAll cs = s.callAll (c :: cs) := by
  simp [Controller.callAll, Controller.call]

/-- The calls after recording more. -/
theorem Controller.callAll_calls (s : Controller) (cs : List Call) :
    (s.callAll cs).calls = s.calls ++ cs := rfl

/-- The bind loop skips an entry for the temp path. -/
theorem CreateAndBindNamespace.loop_tmp (w : World) (pd : List Char × Nat)
    (rest : List NsEntry) (s : Controller) (h : pd.1 = kTmpPath) :
    CreateAndBindNamespace.loop w (NsEntry.ofPair pd :: rest) s =
      CreateAndBindNamespace.loop w rest s := by
  simp [CreateAndBindNamespace.loop, NsEntry.ofPair, h]

/-- The bind loop binds another entry and goes on when the bind succeeds. -/
theorem CreateAndBindNamespace.loop_bound (w : World) (pd : List Char × Nat)
    (rest : List NsEntry) (s : Controller) (h : pd.1 ≠ kTmpPath)
    (hb : w.fdio_ns_bind pd.1 pd.2 = ZX_OK) :
    CreateAndBindNamespace.loop w (NsEntry.ofPair pd :: rest) s =
      CreateAndBindNamespace.loop w rest (s.call (bindCall pd)) := by
  simp [CreateAndBindNamespace.loop, NsEntry.ofPair, h, hb, bindCall]

/-- The bind loop stops at a bind that fails. -/
theorem CreateAndBindNamespace.loop_failed (w : World) (pd : List Char × Nat)
    (rest : List NsEntry) (s : Controller) (h : pd.1 ≠ kTmpPath)
    (hb : w.fdio_ns_bind pd.1 pd.2 ≠ ZX_OK) :
    CreateAndBindNamespace.loop w (NsEntry.ofPair pd :: rest) s =
      (false, s.call (bindCall pd)) := by
  simp [CreateAndBindNamespace.loop, NsEntry.ofPair, h, hb, bindCall]

/-- The entries kept, when the first one is for the temp path. -/
theorem notTmp_cons_tmp (pd : List Char × Nat) (rest : List (List Char × Nat))
    (h : pd.1 = kTmpPath) : notTmp (pd :: rest) = notTmp rest := by
  simp [notTmp, h]

/-- The entries kept, when the first one is not for the temp path. -/
theorem notTmp_cons_keep (pd : List Char × Nat) (rest : List (List Char × Nat))
    (h : pd.1 ≠ kTmpPath) : notTmp (pd :: rest) = pd :: notTmp rest := by
  simp [notTmp, h]

/-- The bind loop when every bind it makes succeeds: it binds the entries that are not for
the temp path, in order, and reports success. -/
theorem CreateAndBindNamespace.loop_ok (w : World) :
    ∀ (pairs : List (List Char × Nat)) (s : Controller),
      (∀ pd ∈ pairs, pd.1 ≠ kTmpPath → w.fdio_ns_bind pd.1 pd.2 = ZX_OK) →
      CreateAndBindNamespace.loop w (pairs.map NsEntry.ofPair) s =
        (true, s.callAll ((notTmp pairs).map bindCall)) := by
  intro pairs
  induction pairs with
  | nil =>
    intro s _
    simp [CreateAndBindNamespace.loop, notTmp, Controller.callAll_nil]
  | cons pd rest ih =>
    intro s hok
    have hrest : ∀ pd ∈ rest, pd.1 ≠ kTmpPath → w.fdio_ns_bind pd.1 pd.2 = ZX_OK :=
      fun q hq => hok q (List.mem_cons_of_mem _ hq)
    rw [List.map_cons]
    by_cases htmp : pd.1 = kTmpPath
    · rw [CreateAndBindNamespace.loop_tmp w pd _ s htmp, ih s hrest, notTmp_cons_tmp _ _ htmp]
    · rw [CreateAndBindNamespace.loop_bound w pd _ s htmp
        (hok pd (List.mem_cons_self _ _) htmp), ih _ hrest, notTmp_cons_keep _ _ htmp,
        Controller.call_callAll, List.map_cons]

/-- The bind loop in general: whatever it calls is a bind of a supplied entry that is not
for the temp path. -/
theorem CreateAndBindNamespace.loop_binds_only (w : World) :
    ∀ (pairs : List (List Char × Nat)) (s : Controller),
      ∃ new, (CreateAndBindNamespace.loop w (pairs.map NsEntry.ofPair) s).2 =
          s.callAll new ∧
        ∀ c ∈ new, ∃ pd ∈ pairs, pd.1 ≠ kTmpPath ∧ c = bindCall pd := by
  intro pairs
  induction pairs with
  | nil =>
    intro s
    exact ⟨[], by simp [CreateAndBindNamespace.loop, Controller.callAll_nil], by simp⟩
  | cons pd rest ih =>
    intro s
    rw [List.map_cons]
    by_cases htmp : pd.1 = kTmpPath
    · obtain ⟨new, h1, h2⟩ := ih s
      refine ⟨new, ?_, ?_⟩
      · rw [CreateAndBindNamespace.loop_tmp w pd _ s htmp, h1]
      · intro c hc
        obtain ⟨q, hq, hne, hcq⟩ := h2 c hc
        exact ⟨q, List.mem_cons_of_mem _ hq, hne, hcq⟩
    · by_cases hb : w.fdio_ns_bind pd.1 pd.2 = ZX_OK
      · obtain ⟨new, h1, h2⟩ := ih (s.call (bindCall pd))
        refine ⟨bindCall pd :: new, ?_, ?_⟩
        · rw [CreateAndBindNamespace.loop_bound w pd _ s htmp hb, h1,
            Controller.call_callAll]
        · intro c hc
          rcases List.mem_cons.mp hc with hc | hc
          · exact ⟨pd, List.mem_cons_self _ _, htmp, hc⟩
          · obtain ⟨q, hq, hne, hcq⟩ := h2 c hc
            exact ⟨q, List.mem_cons_of_mem _ hq, hne, hcq⟩
      · refine ⟨[bindCall pd], ?_, ?_⟩
        · rw [CreateAndBindNamespace.loop_failed w pd _ s htmp hb]
          simp [Controller.callAll, Controller.call]
        · intro c hc
          exact ⟨pd, List.mem_cons_self _ _, htmp, by simpa using hc⟩

/-- The bind loop when a bind fails after binds that succeed: it reports failure and the
failing bind is its last call. -/
theorem CreateAndBindNamespace.loop_stops (w : World) (pd : List Char × Nat)
    (post : List (List Char × Nat)) (htmp : pd.1 ≠ kTmpPath)
    (hbad : w.fdio_ns_bind pd.1 pd.2 ≠ ZX_OK) :
    ∀ (pre : List (List Char × Nat)) (s : Controller),
      (∀ q ∈ pre, q.1 ≠ kTmpPath → w.fdio_ns_bind q.1 q.2 = ZX_OK) →
      CreateAndBindNamespace.loop w ((pre ++ pd :: post).map NsEntry.ofPair) s =
        (false, s.callAll ((notTmp pre).map bindCall ++ [bindCall pd])) := by
  intro pre
  induction pre with
  | nil =>
    intro s _
    rw [List.nil_append, List.map_cons, CreateAndBindNamespace.loop_failed w pd _ s htmp hbad]
    simp [notTmp, Controller.callAll, Controller.call]
  | cons q rest ih =>
    intro s hq
    have hrest : ∀ x ∈ rest, x.1 ≠ kTmpPath → w.fdio_ns_bind x.1 x.2 = ZX_OK :=
      fun x hx => hq x (List.mem_cons_of_mem _ hx)
    rw [List.cons_append, List.map_cons]
    by_cases hqt : q.1 = kTmpPath
    · rw [CreateAndBindNamespace.loop_tmp w q _ s hqt, ih s hrest, notTmp_cons_tmp _ _ hqt]
    · rw [CreateAndBindNamespace.loop_bound w q _ s hqt
        (hq q (List.mem_cons_self _ _) hqt), ih _ hrest, notTmp_cons_keep _ _ hqt,
        Controller.call_callAll, List.map_cons, List.cons_append]

/-- C6: for a supplied namespace whose entries all have a path and a directory, every
call `CreateAndBindNamespace` makes after creating the namespace and setting up the temp
storage is a bind of a supplied entry whose path is not `/tmp`; and when every such bind
succeeds it returns true and has bound exactly the entries whose path is not `/tmp`, each
once, in the supplied order. -/
theorem CreateAndBindNamespace_skips_tmp (w : World) (s : Controller)
    (pairs : List (List Char × Nat))
    (hns : s.start_info_ns = some (pairs.map NsEntry.ofPair)) :
    (∃ new, (CreateAndBindNamespace w s).2.calls =
        s.calls ++ [Call.fdio_ns_create, Call.RunnerTemp_SetupComponent] ++ new ∧
      (∀ c ∈ new, ∃ pd ∈ pairs, pd.1 ≠ kTmpPath ∧ c = Call.fdio_ns_bind pd.1 pd.2) ∧
      ∀ dir, Call.fdio_ns_bind kTmpPath dir ∉ new) ∧
    ((∀ pd ∈ pairs, pd.1 ≠ kTmpPath → w.fdio_ns_bind pd.1 pd.2 = ZX_OK) →
      (CreateAndBindNamespace w s).1 = true ∧
      (CreateAndBindNamespace w s).2.calls =
        s.calls ++ [Call.fdio_ns_create, Call.RunnerTemp_SetupComponent] ++
          ((pairs.filter fun pd => decide (pd.1 ≠ kTmpPath)).map
            fun pd => Call.fdio_ns_bind pd.1 pd.2)) := by
  constructor
  · obtain ⟨new, h1, h2⟩ := CreateAndBindNamespace.loop_binds_only w pairs
      ((fdio_ns_create w s).call .RunnerTemp_SetupComponent)
    refine ⟨new, ?_, h2, ?_⟩
    · simp only [CreateAndBindNamespace, hns]
      rw [h1]
      simp [fdio_ns_create, Controller.call, Controller.callAll]
    · intro dir hmem
      obtain ⟨pd, _, hne, hc⟩ := h2 _ hmem
      simp only [bindCall, Call.fdio_ns_bind.injEq] at hc
      exact hne hc.1.symm
  · intro hok
    have h := CreateAndBindNamespace.loop_ok w pairs
      ((fdio_ns_create w s).call .RunnerTemp_SetupComponent) hok
    simp only [CreateAndBindNamespace, hns]
    rw [h]
    refine ⟨rfl, ?_⟩
    simp only [Controller.callAll_calls]
    simp only [fdio_ns_create, Controller.call, List.append_assoc, List.singleton_append]
    rfl

/-- Witness of C6: the supplied namespace holds `/svc`, `/tmp` and `/pkg`; `/svc` and
`/pkg` are bound, in that order. -/
theorem CreateAndBindNamespace_skips_tmp_witness :
    (CreateAndBindNamespace exampleWorld freshController).1 = true ∧
    (CreateAndBindNamespace exampleWorld freshController).2.calls =
      [Call.fdio_ns_create, Call.RunnerTemp_SetupComponent,
       Call.fdio_ns_bind "/svc".toList 5, Call.fdio_ns_bind "/pkg".toList 7] := by
  have h := (CreateAndBindNamespace_skips_tmp exampleWorld freshController
    [("/svc".toList, 5), ("/tmp".toList, 6), ("/pkg".toList, 7)] rfl).2
    (by intro pd _ _; rfl)
  refine ⟨h.1, ?_⟩
  rw [h.2]
  decide

/-- The failures `CreateAndBindNamespace` does report: start data without a namespace, and
a failing bind, after which nothing further is bound. -/
theorem CreateAndBindNamespace_reported_failures (w : World) (s : Controller) :
    (s.start_info_ns = none → CreateAndBindNamespace w s = (false, s)) ∧
    (∀ (pre post : List (List Char × Nat)) (pd : List Char × Nat),
      s.start_info_ns = some ((pre ++ pd :: post).map NsEntry.ofPair) →
      (∀ q ∈ pre, q.1 ≠ kTmpPath → w.fdio_ns_bind q.1 q.2 = ZX_OK) →
      pd.1 ≠ kTmpPath → w.fdio_ns_bind pd.1 pd.2 ≠ ZX_OK →
      (CreateAndBindNamespace w s).1 = false ∧
      (CreateAndBindNamespace w s).2.calls =
        s.calls ++ [Call.fdio_ns_create, Call.RunnerTemp_SetupComponent] ++
          ((notTmp pre).map bindCall ++ [bindCall pd])) := by
  constructor
  · intro h
    simp [CreateAndBindNamespace, h]
  · intro pre post pd hns hpre htmp hbad
    have h := CreateAndBindNamespace.loop_stops w pd post htmp hbad pre
      ((fdio_ns_create w s).call .RunnerTemp_SetupComponent) hpre
    simp only [CreateAndBindNamespace, hns]
    rw [h]
    refine ⟨rfl, ?_⟩
    simp [fdio_ns_create, Controller.call, Controller.callAll]

/-- C7, the case of a failing namespace creation: the start data has a namespace,
`fdio_ns_create` returns `ZX_ERR_NO_MEMORY`, `namespace_` stays null, and
`CreateAndBindNamespace` goes on to the entries and returns true. -/
theorem CreateAndBindNamespace_create_failure_not_reported :
    tmpOnlyController.start_info_ns = some [⟨some "/tmp".toList, some 6⟩] ∧
    noNamespaceWorld.fdio_ns_create ≠ ZX_OK ∧
    (CreateAndBindNamespace noNamespaceWorld tmpOnlyController).1 = true ∧
    (CreateAndBindNamespace noNamespaceWorld tmpOnlyController).2.namespace_ = false ∧
    (CreateAndBindNamespace noNamespaceWorld tmpOnlyController).2.calls =
      [Call.fdio_ns_create, Call.RunnerTemp_SetupComponent] := by
  decide

/-! ## Snapshot loading -/

/-- C9, the blob fallback of `SetUpFromAppSnapshot`: the ELF snapshot does not load, the
data blob maps at 4096 and the instructions blob at 8192, and the isolate is created from
the values the two uninitialised locals happen to hold (7 and 9 here), not from the two
addresses. -/
theorem SetUpFromAppSnapshot_blobs_not_passed :
    blobsWorld.aot_runtime = true ∧
    blobsWorld.elf_snapshot "pkg/data/hello_dart/app_aot_snapshot.so".toList = none ∧
    addressOf (SetUpFromAppSnapshot blobsWorld freshController).2.isolate_snapshot_data_
      = 4096 ∧
    addressOf
      (SetUpFromAppSnapshot blobsWorld freshController).2.isolate_snapshot_instructions_
      = 8192 ∧
    (SetUpFromAppSnapshot blobsWorld freshController).2.calls =
      [Call.ElfSnapshot_Load "pkg/data/hello_dart/app_aot_snapshot.so".toList,
       Call.LoadFromNamespace true "pkg/data/hello_dart/isolate_snapshot_data.bin".toList
         false,
       Call.LoadFromNamespace true
         "pkg/data/hello_dart/isolate_snapshot_instructions.bin".toList true,
       Call.Dart_CreateIsolateGroup 7 9] := by
  decide

/-! ## Labels -/

/-- C10: `GetLabelFromUrl` never looks at index 0, so for `/abc` it returns the whole URL,
slash included, and for the empty string its first read is at index `SIZE_MAX`, outside
the string; the URL of the source comment gives `hello_dart.cmx`. -/
theorem GetLabelFromUrl_misses_index_zero :
    GetLabelFromUrl "/abc".toList = some "/abc".toList ∧
    '/' ∈ "/abc".toList ∧
    GetLabelFromUrl "".toList = none ∧
    GetLabelFromUrl "fuchsia-pkg://fuchsia.com/hello_dart#meta/hello_dart.cmx".toList
      = some "hello_dart.cmx".toList := by
  decide

/-! ## Manifest loading -/

/-- What `find` returns is an index at or after `start`, inside the string, that holds the
character looked for. -/
theorem find_spec (str : List Char) (c : Char) (start e : Nat)
    (h : find str c start = some e) :
    start ≤ e ∧ e < str.length ∧ str[e]? = some c := by
  unfold find at h
  simp only at h
  split at h
  · rename_i hlt
    have he : start + (str.drop start).indexOf c = e := by simpa using h
    have hlen : (str.drop start).indexOf c < (str.drop start).length := by
      rw [List.length_drop]
      omega
    refine ⟨by omega, by omega, ?_⟩
    rw [← he, ← List.getElem?_drop, List.getElem?_eq_getElem hlen,
      List.getElem_indexOf hlen]
  · simp at h

/-- In a string that continues with a line and its newline, `find` from the start of the
line returns the index of that newline. -/
theorem find_line (pre line rest : List Char) (hline : '\n' ∉ line) :
    find (pre ++ (line ++ '\n' :: rest)) '\n' pre.length
      = some (pre.length + line.length) := by
  unfold find
  simp only [List.drop_left, List.indexOf_append_of_not_mem hline, List.indexOf_cons_self,
    Nat.add_zero, List.length_append, List.length_cons]
  rw [if_pos (by omega)]

/-- The line itself is what `substr` cuts out between its start and its newline. -/
theorem substr_line (pre line rest : List Char) :
    substr (pre ++ (line ++ rest)) pre.length (pre.length + line.length - pre.length)
      = line := by
  unfold substr
  rw [List.drop_left, Nat.add_sub_cancel_left, List.take_left]

/-- The manifest loop never runs out of iterations when given one more than the characters
left. -/
theorem SetUpFromKernel.loop_terminates (w : World) (str : List Char) :
    ∀ (fuel start : Nat) (library : DartHandle) (s : Controller),
      0 < fuel → str.length < start + fuel →
      ∃ r, SetUpFromKernel.loop w str fuel start library s = some r := by
  intro fuel
  induction fuel with
  | zero =>
    intro start library s h0 _
    exact absurd h0 (Nat.lt_irrefl 0)
  | succ fuel ih =>
    intro start library s _ h
    rw [SetUpFromKernel.loop]
    split
    · split
      · exact ⟨_, rfl⟩
      · rename_i e he
        have hs := find_spec str '\n' start e he
        simp only
        split
        · exact ⟨_, rfl⟩
        · split
          · exact ⟨_, rfl⟩
          · exact ih _ _ _ (by omega) (by omega)
    · exact ⟨_, rfl⟩

/-- Nothing is added by doing nothing. -/
theorem Controller.WithoutRootOrFinalize.refl (s : Controller) : s.WithoutRootOrFinalize s :=
  ⟨[], by simp, by simp⟩

/-- Recording a call that is neither of the two keeps the relation. -/
theorem Controller.WithoutRootOrFinalize.call {s t : Controller}
    (h : s.WithoutRootOrFinalize t) (c : Call)
    (hc : c.isRootOrFinalize = false) : s.WithoutRootOrFinalize (t.call c) := by
  obtain ⟨new, h1, h2⟩ := h
  refine ⟨new ++ [c], by simp [Controller.call, h1], ?_⟩
  intro d hd
  rcases List.mem_append.mp hd with hd | hd
  · exact h2 d hd
  · rw [List.mem_singleton.mp hd]
    exact hc

/-- The relation looks at the calls only. -/
theorem Controller.WithoutRootOrFinalize.of_calls {s t u : Controller}
    (h : s.WithoutRootOrFinalize t)
    (hu : u.calls = t.calls) : s.WithoutRootOrFinalize u := by
  obtain ⟨new, h1, h2⟩ := h
  exact ⟨new, by rw [hu, h1], h2⟩

/-- The relation composes. -/
theorem Controller.WithoutRootOrFinalize.trans {s t u : Controller} (h : s.WithoutRootOrFinalize t)
    (h' : t.WithoutRootOrFinalize u) : s.WithoutRootOrFinalize u := by
  obtain ⟨new, h1, h2⟩ := h
  obtain ⟨new', h1', h2'⟩ := h'
  refine ⟨new ++ new', by rw [h1', h1, List.append_assoc], ?_⟩
  intro d hd
  rcases List.mem_append.mp hd with hd | hd
  · exact h2 d hd
  · exact h2' d hd

/-- The manifest loop only maps units, loads libraries and exits the scope: it neither
sets the root library nor finalizes loading. -/
theorem SetUpFromKernel.loop_loads_only (w : World) (str : List Char) :
    ∀ (fuel start : Nat) (library : DartHandle) (s : Controller)
      (r : Option DartHandle × Controller),
      SetUpFromKernel.loop w str fuel start library s = some r →
      s.WithoutRootOrFinalize r.2 := by
  intro fuel
  induction fuel with
  | zero =>
    intro start library s r h
    simp [SetUpFromKernel.loop] at h
  | succ fuel ih =>
    intro start library s r h
    rw [SetUpFromKernel.loop] at h
    split at h
    · split at h
      · cases h
        exact (Controller.WithoutRootOrFinalize.refl s).call _ (by rfl)
      · simp only at h
        split at h
        · cases h
          exact ((Controller.WithoutRootOrFinalize.refl s).call _ (by rfl)).call _ (by rfl)
        · split at h
          · cases h
            exact (((Controller.WithoutRootOrFinalize.refl s).call _ (by rfl)).call _
              (by rfl)).call _ (by rfl)
          · refine Controller.WithoutRootOrFinalize.trans ?_ (ih _ _ _ _ h)
            exact (((Controller.WithoutRootOrFinalize.refl s).call _ (by rfl)).call _
              (by rfl)).of_calls rfl
    · cases h
      exact Controller.WithoutRootOrFinalize.refl s

/-- The manifest loop runs to its end only on a manifest that is empty or ends with a
newline. -/
theorem SetUpFromKernel.loop_done (w : World) (str : List Char) :
    ∀ (fuel start : Nat) (library : DartHandle) (s : Controller)
      (root : DartHandle) (s' : Controller),
      SetUpFromKernel.loop w str fuel start library s = some (some root, s') →
      start ≤ str.length → (start = 0 ∨ str[start - 1]? = some '\n') →
      str = [] ∨ str.getLast? = some '\n' := by
  intro fuel
  induction fuel with
  | zero =>
    intro start library s root s' h
    simp [SetUpFromKernel.loop] at h
  | succ fuel ih =>
    intro start library s root s' h hle hprev
    rw [SetUpFromKernel.loop] at h
    split at h
    · split at h
      · simp at h
      · rename_i e he
        have hs := find_spec str '\n' start e he
        simp only at h
        split at h
        · simp at h
        · split at h
          · simp at h
          · exact ih _ _ _ _ _ h (by omega) (Or.inr (by simpa using hs.2.2))
    · rename_i hge
      have hlen : start = str.length := by omega
      rcases hprev with h0 | hnl
      · left
        exact List.eq_nil_of_length_eq_zero (by omega)
      · right
        rw [List.getLast?_eq_getElem?, ← hlen]
        exact hnl

/-- The manifest loop on a manifest that continues with whole lines, each naming a unit
that maps and loads: it loads the units in order and ends with the library of the last. -/
theorem SetUpFromKernel.loop_lines (w : World) (dp : List Char) :
    ∀ (lines : List (List Char)) (kernels : List MappedResource) (pre : List Char)
      (fuel : Nat) (library : DartHandle) (s : Controller),
      s.data_path_ = dp →
      (∀ line ∈ lines, '\n' ∉ line) →
      List.Forall₂ (fun line kernel =>
        w.ns_resource (dp ++ "/".toList ++ line) = some kernel ∧
        Dart_IsError (w.Dart_LoadLibraryFromKernel kernel) = false) lines kernels →
      lines.length < fuel →
      SetUpFromKernel.loop w (pre ++ unlines lines) fuel pre.length library s =
        some (some ((kernels.map w.Dart_LoadLibraryFromKernel).getLast?.getD library),
          { s with
            kernel_peices_ := s.kernel_peices_ ++ kernels,
            calls := s.calls ++ (List.zipWith (unitCalls dp) lines kernels).flatten }) := by
  intro lines
  induction lines with
  | nil =>
    intro kernels pre fuel library s _ _ hk hfuel
    cases hk
    obtain ⟨f, rfl⟩ : ∃ f, fuel = f + 1 := ⟨fuel - 1, by simp at hfuel; omega⟩
    rw [SetUpFromKernel.loop]
    simp [unlines]
  | cons line rest ih =>
    intro kernels pre fuel library s hdp hnl hk hfuel
    obtain ⟨kernel, ks, ⟨hres, herr⟩, hks, rfl⟩ := List.forall₂_cons_left_iff.mp hk
    obtain ⟨f, rfl⟩ : ∃ f, fuel = f + 1 := ⟨fuel - 1, by simp at hfuel; omega⟩
    have hline : '\n' ∉ line := hnl line (List.mem_cons_self _ _)
    have hstr : pre ++ unlines (line :: rest)
        = (pre ++ (line ++ ['\n'])) ++ unlines rest := by
      simp [unlines]
    have hlen : (pre ++ (line ++ ['\n'])).length = pre.length + line.length + 1 := by
      simp
      omega
    have hrec := ih ks (pre ++ (line ++ ['\n'])) f (w.Dart_LoadLibraryFromKernel kernel)
      { ((s.call (.LoadFromNamespace true (dp ++ "/".toList ++ line) false)).call
          (.Dart_LoadLibraryFromKernel kernel.address kernel.size)) with
        kernel_peices_ := s.kernel_peices_ ++ [kernel] }
      (by simpa [Controller.call] using hdp)
      (fun l hl => hnl l (List.mem_cons_of_mem _ hl)) hks
      (by simp at hfuel; omega)
    rw [hlen, ← hstr] at hrec
    rw [SetUpFromKernel.loop]
    have hlt : pre.length < (pre ++ unlines (line :: rest)).length := by
      simp [unlines]
    rw [if_pos hlt]
    have hfind : find (pre ++ unlines (line :: rest)) '\n' pre.length
        = some (pre.length + line.length) := by
      simpa [unlines] using find_line pre line (unlines rest) hline
    have hsub : substr (pre ++ unlines (line :: rest)) pre.length
        (pre.length + line.length - pre.length) = line := by
      simpa [unlines] using substr_line pre line ('\n' :: unlines rest)
    simp only [hfind, hsub, hdp, hres, herr]
    simp only [Controller.call, hdp] at hrec ⊢
    rw [if_neg (by simp)]
    rw [hrec]
    simp [List.getLast?_cons, unitCalls, List.append_assoc]

/-- A manifest has at least as many characters as lines. -/
theorem length_unlines (lines : List (List Char)) :
    lines.length ≤ (unlines lines).length := by
  induction lines with
  | nil => simp [unlines]
  | cons line rest ih =>
    simp only [unlines, List.length_cons, List.length_append]
    omega

/-- A call that is neither of the two. -/
theorem Call.not_root_or_finalize (c : Call) (h : c.isRootOrFinalize = false) :
    c ≠ Call.Dart_FinalizeLoading ∧ ∀ library, c ≠ Call.Dart_SetRootLibrary library := by
  constructor
  · rintro rfl
    simp [Call.isRootOrFinalize] at h
  · rintro library rfl
    simp [Call.isRootOrFinalize] at h

/-- The part of `SetUpFromKernel` from `Dart_EnterScope()` on fails, without setting the
root library or finalizing, on a manifest that is not empty and does not end with a
newline. -/
theorem SetUpFromKernel.load_malformed (w : World) (manifest : MappedResource)
    (s : Controller) (hne : manifest.bytes ≠ [])
    (hlast : manifest.bytes.getLast? ≠ some '\n') :
    (SetUpFromKernel.load w manifest s).1 = false ∧
    s.WithoutRootOrFinalize (SetUpFromKernel.load w manifest s).2 := by
  have hs : s.WithoutRootOrFinalize (s.call .Dart_EnterScope) :=
    (Controller.WithoutRootOrFinalize.refl s).call _ (by rfl)
  unfold SetUpFromKernel.load
  simp only
  cases hloop : SetUpFromKernel.loop w manifest.bytes (manifest.size + 1) 0 DartHandle.null
      (s.call .Dart_EnterScope) with
  | none => exact ⟨rfl, hs⟩
  | some r =>
    obtain ⟨o, s'⟩ := r
    have hcalls := SetUpFromKernel.loop_loads_only w manifest.bytes _ _ _ _ _ hloop
    cases o with
    | none => exact ⟨rfl, hs.trans hcalls⟩
    | some root =>
      rcases SetUpFromKernel.loop_done w manifest.bytes _ _ _ _ _ _ hloop (Nat.zero_le _)
        (Or.inl rfl) with h | h
      · exact absurd h hne
      · exact absurd h hlast

/-- The iterations `SetUpFromKernel.load` allows the manifest loop are enough. -/
theorem SetUpFromKernel.load_fuel (w : World) (manifest : MappedResource) (s : Controller) :
    ∃ r, SetUpFromKernel.loop w manifest.bytes (manifest.size + 1) 0 DartHandle.null s
      = some r :=
  SetUpFromKernel.loop_terminates w manifest.bytes _ _ _ _ (Nat.succ_pos _)
    (by simp [MappedResource.size])

/-- C5: the manifest loop of `SetUpFromKernel`, reached with the manifest, the
core snapshot and the isolate in place. If the manifest is a concatenation of lines each
ended by a newline, and the unit named by each line maps and loads, then exactly these
units are loaded, the i-th from `data_path_ + "/" +` the i-th line, in file order, the
root library is set to the library returned for the last line, loading is finalized, and
the result is whether finalizing succeeded. If the manifest is not empty and does not end
with a newline, `SetUpFromKernel` returns false and none of its calls sets the root
library or finalizes loading. -/
theorem SetUpFromKernel_manifest (w : World) (s : Controller)
    (manifest data instructions : MappedResource)
    (hman : w.ns_resource (s.data_path_ ++ "/app.dilplist".toList) = some manifest)
    (hdata : w.pkg_resource "/pkg/data/isolate_core_snapshot_data.bin".toList = some data)
    (hinstr : w.pkg_resource "/pkg/data/isolate_core_snapshot_instructions.bin".toList
      = some instructions)
    (hiso : w.Dart_CreateIsolateGroup data.address instructions.address = true) :
    (∀ (lines : List (List Char)) (kernels : List MappedResource),
      manifest.bytes = unlines lines →
      (∀ line ∈ lines, '\n' ∉ line) →
      List.Forall₂ (fun line kernel =>
        w.ns_resource (s.data_path_ ++ "/".toList ++ line) = some kernel ∧
        Dart_IsError (w.Dart_LoadLibraryFromKernel kernel) = false) lines kernels →
      (SetUpFromKernel w s).1 = !Dart_IsError w.Dart_FinalizeLoading ∧
      (SetUpFromKernel w s).2.kernel_peices_ = s.kernel_peices_ ++ kernels ∧
      (SetUpFromKernel w s).2.calls =
        s.calls ++
          [Call.LoadFromNamespace true (s.data_path_ ++ "/app.dilplist".toList) false,
           Call.LoadFromNamespace false "/pkg/data/isolate_core_snapshot_data.bin".toList
             false,
           Call.LoadFromNamespace false
             "/pkg/data/isolate_core_snapshot_instructions.bin".toList true,
           Call.Dart_CreateIsolateGroup data.address instructions.address,
           Call.Dart_EnterScope] ++
          (List.zipWith (unitCalls s.data_path_) lines kernels).flatten ++
          [Call.Dart_SetRootLibrary
             ((kernels.map w.Dart_LoadLibraryFromKernel).getLast?.getD DartHandle.null),
           Call.Dart_FinalizeLoading] ++
          (if Dart_IsError w.Dart_FinalizeLoading then [Call.Dart_ExitScope] else [])) ∧
    (manifest.bytes ≠ [] → manifest.bytes.getLast? ≠ some '\n' →
      (SetUpFromKernel w s).1 = false ∧
      ∃ new, (SetUpFromKernel w s).2.calls = s.calls ++ new ∧
        ∀ c ∈ new, c ≠ Call.Dart_FinalizeLoading ∧
          ∀ library, c ≠ Call.Dart_SetRootLibrary library) := by
  set s1 : Controller :=
    { s with
      isolate_ := true,
      current_isolate := true,
      isolate_snapshot_data_ := some data,
      isolate_snapshot_instructions_ := some instructions,
      calls := s.calls ++
        [Call.LoadFromNamespace true (s.data_path_ ++ "/app.dilplist".toList) false,
         Call.LoadFromNamespace false "/pkg/data/isolate_core_snapshot_data.bin".toList false,
         Call.LoadFromNamespace false
           "/pkg/data/isolate_core_snapshot_instructions.bin".toList true,
         Call.Dart_CreateIsolateGroup data.address instructions.address] } with hs1
  have hload : SetUpFromKernel w s = SetUpFromKernel.load w manifest s1 := by
    simp only [SetUpFromKernel, Controller.call, hman, hdata, hinstr, CreateIsolate,
      addressOf, hiso, hs1, if_true, List.append_assoc, List.cons_append, List.nil_append]
  rw [hload]
  constructor
  · intro lines kernels hbytes hnl hunits
    have hloop := SetUpFromKernel.loop_lines w s.data_path_ lines kernels []
      (manifest.size + 1) DartHandle.null (s1.call .Dart_EnterScope) rfl hnl hunits
      (by
        have := length_unlines lines
        rw [← hbytes] at this
        simp only [MappedResource.size]
        omega)
    rw [List.nil_append, ← hbytes, List.length_nil] at hloop
    unfold SetUpFromKernel.load
    simp only [hloop]
    by_cases hfin : Dart_IsError w.Dart_FinalizeLoading = true
    · simp [hfin, Controller.call, hs1]
    · simp [hfin, Controller.call, hs1]
  · intro hne hlast
    obtain ⟨hfalse, new, h1, h2⟩ := SetUpFromKernel.load_malformed w manifest s1 hne hlast
    refine ⟨hfalse,
      [Call.LoadFromNamespace true (s.data_path_ ++ "/app.dilplist".toList) false,
       Call.LoadFromNamespace false "/pkg/data/isolate_core_snapshot_data.bin".toList false,
       Call.LoadFromNamespace false
         "/pkg/data/isolate_core_snapshot_instructions.bin".toList true,
       Call.Dart_CreateIsolateGroup data.address instructions.address] ++ new, ?_, ?_⟩
    · rw [h1, hs1, List.append_assoc]
    · intro c hc
      rcases List.mem_append.mp hc with hc | hc
      · simp only [List.mem_cons, List.mem_singleton, List.not_mem_nil, or_false] at hc
        rcases hc with rfl | rfl | rfl | rfl <;> simp
      · exact Call.not_root_or_finalize c (h2 c hc)

/-- Witness of C5: the three-line manifest `a`, `b`, `c` of `hello_dart`, with the units
mapped at 100, 200 and 300 and loading as the libraries 1, 2 and 3; library 3 becomes the
root library. -/
theorem SetUpFromKernel_manifest_witness :
    (SetUpFromKernel threeLineWorld freshController).1 = true ∧
    (SetUpFromKernel threeLineWorld freshController).2.calls.drop 5 =
      [Call.LoadFromNamespace true "pkg/data/hello_dart/a".toList false,
       Call.Dart_LoadLibraryFromKernel 100 1,
       Call.LoadFromNamespace true "pkg/data/hello_dart/b".toList false,
       Call.Dart_LoadLibraryFromKernel 200 2,
       Call.LoadFromNamespace true "pkg/data/hello_dart/c".toList false,
       Call.Dart_LoadLibraryFromKernel 300 3,
       Call.Dart_SetRootLibrary (.object 3),
       Call.Dart_FinalizeLoading] := by
  have h := (SetUpFromKernel_manifest threeLineWorld freshController
    ⟨50, "a\nb\nc\n".toList⟩ ⟨4096, []⟩ ⟨4096, []⟩ (by decide) (by decide) (by decide)
    (by decide)).1
    ["a".toList, "b".toList, "c".toList]
    [⟨100, ['x']⟩, ⟨200, ['x', 'y']⟩, ⟨300, ['x', 'y', 'z']⟩]
    (by decide) (by decide)
    (List.Forall₂.cons (by decide) (List.Forall₂.cons (by decide)
      (List.Forall₂.cons (by decide) List.Forall₂.nil)))
  refine ⟨h.1, ?_⟩
  rw [h.2.2]
  decide

end dart_runner
